import Mathlib

/-!
Shallow embedding of `src/update_data.py` (betapix/auto-movie-metadata), the
movie-metadata aggregation script, together with proofs about the embedded
definitions.  Python dictionaries coming from JSON payloads are modelled as
structures with `Option` fields (`none` = key absent / JSON null), Python
truthiness of strings and numbers is modelled explicitly, and machine-level
concerns (HTTP, file IO, sleeping) are abstracted away: a network call is a
value of type `Option payload` (`none` = the call failed).
-/

namespace UpdateData

/-- Python truthiness of an optional string: `None` and `""` are falsy. -/
def pyTruthyStr (o : Option String) : Bool :=
  match o with
  | some s => !s.isEmpty
  | none => false

/-- ASCII lower-casing of one character (`str.lower` restricted to ASCII,
which covers every string the trailer logic compares against). -/
def lowerChar (c : Char) : Char :=
  if 65 ≤ c.toNat ∧ c.toNat ≤ 90 then Char.ofNat (c.toNat + 32) else c

/-- `s.lower()` (ASCII). -/
def strLower (s : String) : String :=
  ⟨s.data.map lowerChar⟩

/-- `pat in s` for Python strings: `pat` occurs as a contiguous substring. -/
def subOccurs (pat : List Char) : List Char → Bool
  | [] => pat.isEmpty
  | c :: rest => pat.isPrefixOf (c :: rest) || subOccurs pat rest

/-- Lexicographic `≤` on character lists by code point, the order Python uses
to compare the `published_at` date strings inside the priority tuples. -/
def charsLe : List Char → List Char → Bool
  | [], _ => true
  | _ :: _, [] => false
  | a :: as, b :: bs =>
    if a.toNat < b.toNat then true
    else if b.toNat < a.toNat then false
    else charsLe as bs

/-- One step of Python tuple comparison: compare the `Nat` components, fall
through to `rest` on a tie. -/
def natThen (a b : Nat) (rest : Bool) : Bool :=
  if a < b then true else if b < a then false else rest

/-- The priority tuple returned by `trailer_priority`:
(is_youtube, is_official, name_bonus, type_rank, published date). -/
abbrev TKey := Nat × Nat × Nat × Nat × String

/-- Python's lexicographic `≤` on the 5-tuples produced by `trailer_priority`. -/
def tkeyLe (p q : TKey) : Bool :=
  natThen p.1 q.1 (natThen p.2.1 q.2.1 (natThen p.2.2.1 q.2.2.1
    (natThen p.2.2.2.1 q.2.2.2.1 (charsLe p.2.2.2.2.data q.2.2.2.2.data))))

/-- One raw video descriptor from the TMDb `/videos` endpoint, as consumed by
the trailer-selection code (`v.get(...)` on each field). `vtype` embeds the
payload's `type` key (a Lean keyword). -/
structure Video where
  site : Option String
  key : Option String
  official : Bool
  name : Option String
  vtype : Option String
  published_at : Option String
  url : Option String

/-- `trailer_priority(v)` from `fetch_tmdb` / `fetch_tmdb_tv` (the two copies
are textually identical). Higher is better. -/
def trailer_priority (v : Video) : TKey :=
  let is_youtube : Nat := if v.site = some "YouTube" then 1 else 0
  let is_official : Nat := if v.official then 1 else 0
  let lname := strLower (v.name.getD "")
  let name_bonus : Nat := if subOccurs "official trailer".data lname.data then 1 else 0
  let type_val := v.vtype.getD ""
  let type_rank : Nat :=
    if type_val = "Trailer" then 3
    else if type_val = "Teaser" then 2
    else if type_val = "Clip" then 1
    else 0
  let date := v.published_at.getD ""
  (is_youtube, is_official, name_bonus, type_rank, date)

/-- `a` sorts no later than `b` under `sorted(key=trailer_priority,
reverse=True)`: the priority of `b` is `≤` the priority of `a`. -/
def videoGE (a b : Video) : Prop :=
  tkeyLe (trailer_priority b) (trailer_priority a) = true

instance : DecidableRel videoGE := fun a b =>
  inferInstanceAs (Decidable (tkeyLe (trailer_priority b) (trailer_priority a) = true))

/-- The playable URL built while walking the sorted video list: a YouTube
watch URL when a truthy key exists on a YouTube entry, else the raw `url`
field when truthy, else nothing. -/
def usableUrl (v : Video) : Option String :=
  if v.site = some "YouTube" ∧ pyTruthyStr v.key then
    some ("https://www.youtube.com/watch?v=" ++ v.key.getD "")
  else if pyTruthyStr v.url then v.url
  else none

/-- The selection walk over the sorted videos: skip unusable and
already-seen URLs, append new ones, stop as soon as 2 are collected.
`acc` plays the role of both `trailers` and `seen` (they always hold the
same URLs in the source). -/
def selectLoop : List Video → List String → List String
  | [], acc => acc
  | v :: vs, acc =>
    match usableUrl v with
    | none => selectLoop vs acc
    | some u =>
      if u ∈ acc then selectLoop vs acc
      else if (acc ++ [u]).length ≥ 2 then acc ++ [u]
      else selectLoop vs (acc ++ [u])

/-- The stable descending sort `sorted(videos, key=trailer_priority,
reverse=True)`; insertion sort is a stable sort, so it computes the same
list as Python's stable Timsort for this total preorder. -/
def sortVideos (videos : List Video) : List Video :=
  List.insertionSort videoGE videos

/-- The whole trailer-selection block of `fetch_tmdb` / `fetch_tmdb_tv`. -/
def select_trailers (videos : List Video) : List String :=
  selectLoop (sortVideos videos) []

/-- First-occurrence deduplication relative to an already-seen set, used to
restate the selection walk the way the spec phrases it. -/
def dedupFirst (seen : List String) : List String → List String
  | [] => []
  | u :: rest => if u ∈ seen then dedupFirst seen rest else u :: dedupFirst (seen ++ [u]) rest


/-! ### RetryPolicy: the bounded attempt loops -/

/-- One bounded retry loop. `f i` is the outcome of attempt `i` (0-based):
`some p` when the call returns a usable payload, `none` when it raises or
returns a non-2xx status. The loop tries attempts `i, i+1, ...` while `fuel`
lasts and returns the first success, mirroring
`for attempt in range(n): try ... break except ...`. All exceptions are
caught inside the loop, so the result is always a value, never a raise. -/
def retryExec (f : Nat → Option α) : Nat → Nat → Option α
  | _, 0 => none
  | i, fuel + 1 =>
    match f i with
    | some a => some a
    | none => retryExec f (i + 1) fuel

/-- Run an operation under at most `maxAttempts` attempts. -/
def retryOp (f : Nat → Option α) (maxAttempts : Nat) : Option α :=
  retryExec f 0 maxAttempts

/-- Page-level fetch: `for attempt in range(3)` with `time.sleep(5)`. -/
def pageFetchAttempts : Nat := 3

/-- Fixed delay of the page-level fetch retries, in seconds. -/
def pageFetchDelay : Nat := 5

/-- Per-item enrichment calls (details / credits / videos):
`for attempt in range(2)` with `time.sleep(3)`. -/
def enrichAttempts : Nat := 2

/-- Fixed delay of the enrichment retries, in seconds. -/
def enrichDelay : Nat := 3

/-- The Wikidata query: `for attempt in range(5)`. -/
def wikidataAttempts : Nat := 5

/-- The failure classes `fetch_wikidata` distinguishes when backing off. -/
inductive WikiFailKind where
  | timeout
  | connError
  | other

/-- The wait before the next Wikidata attempt after a failure of the given
class on 0-based attempt `attempt`: timeouts scale by 10s, connection errors
by 8s, anything else by 5s. -/
def wikidataWait (k : WikiFailKind) (attempt : Nat) : Nat :=
  match k with
  | .timeout => (attempt + 1) * 10
  | .connError => (attempt + 1) * 8
  | .other => (attempt + 1) * 5

/-! ### PaginationState -/

/-- The persisted pagination state: `(namespace, key) ↦ next_page`, the
nested-dict shape `state[ns][key]["next_page"]` collapsed to a lookup. -/
def PagState := String → String → Option Nat

/-- `get_start_page(state, namespace, key, default_start=1)`. -/
def get_start_page (state : PagState) (ns key : String) (default_start : Nat := 1) : Nat :=
  (state ns key).getD default_start

/-- `set_next_page(state, namespace, key, next_page)`, returning the updated
state instead of mutating in place. -/
def set_next_page (state : PagState) (ns key : String) (next_page : Nat) : PagState :=
  fun ns' key' => if ns' = ns ∧ key' = key then some next_page else state ns' key'

/-- `PAGES_PER_CATEGORY = 10`, the per-category page budget both
`fetch_tmdb` and `fetch_tmdb_tv` fix locally. -/
def PAGES_PER_CATEGORY : Nat := 10

/-- `PAGES_TO_FETCH = 20`, the TVMaze page budget. -/
def PAGES_TO_FETCH : Nat := 20

/-- The page numbers a TMDb category loop iterates:
`range(1, PAGES_PER_CATEGORY + 1)`. The loop never consults the pagination
state, hence the unused argument. -/
def tmdbPageNumbers (_state : PagState) : List Nat :=
  List.range' 1 PAGES_PER_CATEGORY

/-- The page numbers the TVMaze loop iterates: `range(1, PAGES_TO_FETCH + 1)`;
again independent of the pagination state. -/
def tvmazePageNumbers (_state : PagState) : List Nat :=
  List.range' 1 PAGES_TO_FETCH

/-! ### JSON values and canonical records -/

/-- A JSON value, used for the normalized record dictionaries the script
appends to its result lists. -/
inductive JVal where
  | null
  | str (s : String)
  | num (q : ℚ)
  | jbool (b : Bool)
  | arr (elems : List JVal)
  | obj (fields : List (String × JVal))

/-- A normalized record: the Python dict literal, key order preserved. -/
abbrev Record := List (String × JVal)

/-- A `.get(...)`-style optional string as a JSON value. -/
def optStr : Option String → JVal
  | some s => .str s
  | none => .null

/-- An optional integer as a JSON value. -/
def optNat : Option Nat → JVal
  | some n => .num n
  | none => .null

/-- `x or None` applied to an optional number: `0` is falsy and collapses
to `None` (JSON null). -/
def pyNumOrNull : Option ℚ → JVal
  | some q => if q = 0 then .null else .num q
  | none => .null

/-- `s[:4] if s else "N/A"`: the year derived from a release / first-air /
premiere date. Python slices characters, as does `String.take`. -/
def deriveYear (d : Option String) : String :=
  if pyTruthyStr d then (d.getD "").take 4 else "N/A"

/-- `CURRENCY_MAP` from the top of the script. -/
def CURRENCY_MAP : List (String × String) :=
  [("US", "$"), ("GB", "£"), ("EU", "€"), ("IN", "₹"), ("JP", "¥")]

/-- `CURRENCY_MAP.get(country_code, "$")`. -/
def currencySymbolFor (code : String) : String :=
  (CURRENCY_MAP.lookup code).getD "$"

/-- Insert a comma every three characters of a reversed digit string. -/
def groupRev : List Char → List Char
  | a :: b :: c :: d :: rest => a :: b :: c :: ',' :: groupRev (d :: rest)
  | l => l

/-- Python's thousands-separator format `f"{n:,}"` for a natural number. -/
def fmtThousands (n : Nat) : String :=
  ⟨(groupRev (toString n).data.reverse).reverse⟩

/-- `f"{currency_symbol}{details.get('budget', 0):,}" if details.get("budget")
else None`: a truthy amount is formatted with the symbol and separators,
`0` or an absent amount yields `None` (JSON null, the key stays present). -/
def currencyField (symbol : String) (amount : Option Nat) : JVal :=
  match amount with
  | some a => if a = 0 then .null else .str (symbol ++ fmtThousands a)
  | none => .null

/-- Remove every non-overlapping occurrence of `pat` from `s`, scanning left
to right: `s.replace(pat, "")`. -/
def removeOcc (pat : List Char) : List Char → List Char
  | [] => []
  | c :: rest =>
    if h : pat ≠ [] ∧ pat.isPrefixOf (c :: rest) then
      removeOcc pat ((c :: rest).drop pat.length)
    else
      c :: removeOcc pat rest
termination_by l => l.length
decreasing_by
  · simp only [List.length_drop, List.length_cons]
    have : pat.length ≠ 0 := by
      simpa using fun hnil => h.1 (List.length_eq_zero.mp hnil)
    omega
  · simp

/-- `s.replace(pat, "")` on strings. -/
def pyReplaceEmpty (s pat : String) : String :=
  ⟨removeOcc pat.data s.data⟩

/-! ### TMDb movies: per-item normalization (`fetch_tmdb`) -/

/-- One raw item of a TMDb movie listing page (`results` entry). -/
structure TmdbMovie where
  id : Option Nat
  title : Option String
  release_date : Option String
  overview : Option String
  poster_path : Option String
  vote_average : Option ℚ

/-- The payload of the per-movie details call. `genres`, `networks` and
`production_companies` hold the already-extracted `name` entries of the
raw dicts; `production_countries` holds the `iso_3166_1` codes;
`watch_providers_results` is `details.get("watch/providers", {}).get("results", {})`,
passed through uninterpreted. -/
structure TmdbDetails where
  production_countries : List String
  genres : List String
  budget : Option Nat
  revenue : Option Nat
  networks : List String
  production_companies : List String
  watch_providers_results : JVal

/-- One entry of `credits["cast"]`. -/
structure CastMember where
  name : Option String
  character : Option String
  profile_path : Option String

/-- One entry of `credits["crew"]`. -/
structure CrewMember where
  name : Option String
  job : Option String

/-- The payload of the per-item credits call. -/
structure Credits where
  cast : List CastMember
  crew : List CrewMember

/-- `cast_list`: the first 10 cast entries mapped to name / character /
profile dicts. -/
def mkCastList (cast : List CastMember) : List JVal :=
  (cast.take 10).map fun c =>
    .obj [("name", optStr c.name),
          ("character", optStr c.character),
          ("profile", .str (if pyTruthyStr c.profile_path then
              "https://image.tmdb.org/t/p/w300" ++ c.profile_path.getD "" else ""))]

/-- `directors`: crew names whose job is exactly `"Director"`. -/
def directorsOf (crew : List CrewMember) : List JVal :=
  (crew.filter fun c => c.job = some "Director").map fun c => optStr c.name

/-- `writers`: crew names whose job is in `["Writer", "Screenplay", "Story"]`. -/
def writersOf (crew : List CrewMember) : List JVal :=
  (crew.filter fun c => c.job ∈ [some "Writer", some "Screenplay", some "Story"]).map
    fun c => optStr c.name

/-- The dict appended to `page_movies` for one movie, key order as in the
source. `trailers` is the list produced by the trailer-selection block. -/
def mkTmdbMovieRecord (category : String) (movie : TmdbMovie) (details : TmdbDetails)
    (credits : Credits) (trailers : List String) : Record :=
  let year := deriveYear movie.release_date
  let country_code :=
    match details.production_countries with
    | [] => "US"
    | c :: _ => c
  let currency_symbol := currencySymbolFor country_code
  [("id", optNat movie.id),
   ("title", optStr movie.title),
   ("year", .str year),
   ("overview", .str (movie.overview.getD "")),
   ("poster", .str (if pyTruthyStr movie.poster_path then
       "https://image.tmdb.org/t/p/w500" ++ movie.poster_path.getD "" else "")),
   ("rating", pyNumOrNull movie.vote_average),
   ("genres", .arr (details.genres.map .str)),
   ("budget", currencyField currency_symbol details.budget),
   ("revenue", currencyField currency_symbol details.revenue),
   ("directors", .arr (directorsOf credits.crew)),
   ("writers", .arr (writersOf credits.crew)),
   ("cast", .arr (mkCastList credits.cast)),
   ("trailers", .arr (trailers.map .str)),
   ("networks", .arr (details.networks.map .str)),
   ("origin_country", .str country_code),
   ("providers", details.watch_providers_results),
   ("production_companies", .arr (details.production_companies.map .str)),
   ("category", .str category),
   ("source", .str "TMDb")]

/-- `videos` enrichment outcome to trailer URLs: when both attempts of the
videos call raise, `trailers` keeps its initial `[]`. -/
def trailersFromVideos (videos : Option (List Video)) : List String :=
  match videos with
  | some vs => select_trailers vs
  | none => []

/-- Per-item processing of one TMDb movie, with the enrichment outcomes as
inputs (`none` = the call exhausted its retries): `if not details: continue`
skips the item, a missing credits payload degrades to
`{"cast": [], "crew": []}`. -/
def processTmdbMovie (category : String) (movie : TmdbMovie) (details : Option TmdbDetails)
    (credits : Option Credits) (videos : Option (List Video)) : Option Record :=
  match details with
  | none => none
  | some d =>
    some (mkTmdbMovieRecord category movie d (credits.getD ⟨[], []⟩) (trailersFromVideos videos))

/-! ### TMDb TV: per-item normalization (`fetch_tmdb_tv`) -/

/-- One raw item of a TMDb TV listing page. -/
structure TmdbShow where
  id : Option Nat
  name : Option String
  first_air_date : Option String
  poster_path : Option String
  vote_average : Option ℚ

/-- The payload of the per-show details call; `genres` holds the
`g.get("name")` values (possibly `None`), `created_by` the
`c.get("name")` values, `origin_country` the raw country-code list. -/
structure TmdbTvDetails where
  overview : Option String
  genres : List (Option String)
  created_by : List (Option String)
  origin_country : List String
  watch_providers_results : JVal

/-- The dict appended to `page_items` for one TV show. -/
def mkTmdbTvRecord (category : String) (tvshow : TmdbShow) (details : TmdbTvDetails)
    (credits : Credits) (trailers : List String) : Record :=
  let year := deriveYear tvshow.first_air_date
  let origin_country :=
    match details.origin_country with
    | [] => "US"
    | c :: _ => c
  [("id", optNat tvshow.id),
   ("title", optStr tvshow.name),
   ("year", .str year),
   ("overview", .str (details.overview.getD "")),
   ("poster", .str (if pyTruthyStr tvshow.poster_path then
       "https://image.tmdb.org/t/p/w500" ++ tvshow.poster_path.getD "" else "")),
   ("rating", pyNumOrNull tvshow.vote_average),
   ("genres", .arr (details.genres.map optStr)),
   ("creators", .arr (details.created_by.map optStr)),
   ("cast", .arr (mkCastList credits.cast)),
   ("trailers", .arr (trailers.map .str)),
   ("origin_country", .str origin_country),
   ("providers", details.watch_providers_results),
   ("category", .str category),
   ("type", .str "tv"),
   ("source", .str "TMDb")]

/-- Per-item processing of one TMDb TV show: details failure skips the item,
credits failure degrades to empty cast/crew. -/
def processTmdbTv (category : String) (tvshow : TmdbShow) (details : Option TmdbTvDetails)
    (credits : Option Credits) (videos : Option (List Video)) : Option Record :=
  match details with
  | none => none
  | some d =>
    some (mkTmdbTvRecord category tvshow d (credits.getD ⟨[], []⟩) (trailersFromVideos videos))

/-! ### TVMaze and Wikidata normalization -/

/-- One raw TVMaze show. `image` is `none` when `show.get("image")` is
absent or falsy, `some m` when a truthy image dict with `medium = m` exists;
`rating` likewise for the rating dict and its `average`. -/
structure TvmazeShow where
  id : Option Nat
  name : Option String
  premiered : Option String
  summary : Option String
  image : Option (Option String)
  rating : Option (Option ℚ)
  genres : List String

/-- The dict appended to `shows` for one TVMaze show: every show yields a
record, the summary has its `<p>` / `</p>` markers stripped. -/
def normalizeTvmazeShow (s : TvmazeShow) : Record :=
  let year := deriveYear s.premiered
  [("id", optNat s.id),
   ("title", optStr s.name),
   ("year", .str year),
   ("overview", .str (if pyTruthyStr s.summary then
       pyReplaceEmpty (pyReplaceEmpty (s.summary.getD "") "<p>") "</p>" else "")),
   ("poster", match s.image with
     | some m => optStr m
     | none => .str ""),
   ("rating", match s.rating with
     | some avg => (match avg with
        | some q => .num q
        | none => .null)
     | none => .null),
   ("genres", .arr (s.genres.map .str)),
   ("source", .str "TVMaze")]

/-- One TVMaze page: every entry of `res.json()` is appended. -/
def tvmazePageRecords (shows : List TvmazeShow) : List Record :=
  shows.map normalizeTvmazeShow

/-- One SPARQL binding: the extracted `movieLabel.value` / `poster.value`. -/
structure WikidataItem where
  movieLabel : Option String
  poster : Option String

/-- The dict appended to `movies` for one Wikidata binding; a falsy label
becomes `"N/A"`, a falsy poster the empty string. -/
def normalizeWikidataItem (item : WikidataItem) : Record :=
  [("title", .str (if pyTruthyStr item.movieLabel then item.movieLabel.getD "" else "N/A")),
   ("poster", .str (if pyTruthyStr item.poster then item.poster.getD "" else "")),
   ("source", .str "Wikidata")]

/-! ### Pagination loop and aggregation (`main`) -/

/-- One provider page loop: a page whose fetch exhausted its retries
contributes nothing (`continue`), a fetched page extends the result list. -/
def runPages (fetch : Nat → Option (List Record)) : List Nat → List Record
  | [] => []
  | p :: ps =>
    match fetch p with
    | none => runPages fetch ps
    | some items => items ++ runPages fetch ps

/-- `all_movies.extend(category_movies)` / `category_movies.extend(page_movies)`
flattening, order preserved. -/
def concatPages : List (List Record) → List Record
  | [] => []
  | p :: ps => p ++ concatPages ps

/-- `item.get("category", "unknown")` on a record. -/
def categoryOf (r : Record) : String :=
  match r.lookup "category" with
  | some (.str c) => c
  | _ => "unknown"

/-- `counts[category] = counts.get(category, 0) + 1`, preserving dict
insertion order. -/
def bumpCount : List (String × Nat) → String → List (String × Nat)
  | [], c => [(c, 1)]
  | (k, n) :: rest, c =>
    if k = c then (k, n + 1) :: rest else (k, n) :: bumpCount rest c

/-- The per-category tally loops in `main`. -/
def categoryCounts (records : List Record) : List (String × Nat) :=
  records.foldl (fun acc r => bumpCount acc (categoryOf r)) []

/-- The `breakdown` object of the output document. -/
structure Breakdown where
  tmdb_movies : Nat
  tmdb_tv : Nat
  tvmaze_shows : Nat
  wikidata_movies : Nat

/-- The output document assembled by `main` (minus the static developer
block and the timestamp, which carry no claim-relevant structure). -/
structure OutputDoc where
  total_entries : Nat
  breakdown : Breakdown
  tmdb_categories : List (String × Nat)
  tmdb_tv_categories : List (String × Nat)
  movies : List Record

/-- `main`'s combination step: `combined = tmdb_movies + tmdb_tv +
tvmaze_shows + wikidata_movies` and the summary fields computed from it. -/
def buildOutput (tmdb_movies tmdb_tv tvmaze_shows wikidata_movies : List Record) : OutputDoc :=
  let combined := tmdb_movies ++ tmdb_tv ++ tvmaze_shows ++ wikidata_movies
  { total_entries := combined.length
    breakdown :=
      { tmdb_movies := tmdb_movies.length
        tmdb_tv := tmdb_tv.length
        tvmaze_shows := tvmaze_shows.length
        wikidata_movies := wikidata_movies.length }
    tmdb_categories := categoryCounts tmdb_movies
    tmdb_tv_categories := categoryCounts tmdb_tv
    movies := combined }

theorem charsLe_refl (a : List Char) : charsLe a a = true := by
  induction a with
  | nil => rfl
  | cons c cs ih => simp [charsLe, ih]

theorem charsLe_total (a b : List Char) : (charsLe a b || charsLe b a) = true := by
  induction a generalizing b with
  | nil => simp [charsLe]
  | cons c cs ih =>
    cases b with
    | nil => simp [charsLe]
    | cons d ds =>
      simp only [charsLe]
      split_ifs with h1 h2 <;> simp_all

theorem charsLe_trans (a b c : List Char) (h1 : charsLe a b = true) (h2 : charsLe b c = true) :
    charsLe a c = true := by
  induction a generalizing b c with
  | nil => rfl
  | cons x xs ih =>
    cases b with
    | nil => simp [charsLe] at h1
    | cons y ys =>
      cases c with
      | nil => simp [charsLe] at h2
      | cons z zs =>
        simp only [charsLe] at h1 h2 ⊢
        split_ifs at h1 h2 ⊢ <;> first | rfl | omega | exact ih ys zs h1 h2

theorem natThen_refl (a : Nat) (x : Bool) : natThen a a x = x := by
  simp [natThen]

theorem natThen_trans {a b c : Nat} {x y z : Bool}
    (h : x = true → y = true → z = true)
    (h1 : natThen a b x = true) (h2 : natThen b c y = true) :
    natThen a c z = true := by
  unfold natThen at h1 h2 ⊢
  split_ifs at h1 h2 ⊢ <;> first | rfl | omega | exact h h1 h2

theorem natThen_total {a b : Nat} {x y : Bool} (h : (x || y) = true) :
    (natThen a b x || natThen b a y) = true := by
  unfold natThen
  split_ifs <;> simp_all

theorem tkeyLe_refl (p : TKey) : tkeyLe p p = true := by
  obtain ⟨a1, a2, a3, a4, d⟩ := p
  simp [tkeyLe, natThen_refl, charsLe_refl]

theorem tkeyLe_trans (p q r : TKey) (h1 : tkeyLe p q = true) (h2 : tkeyLe q r = true) :
    tkeyLe p r = true := by
  obtain ⟨a1, a2, a3, a4, ad⟩ := p
  obtain ⟨b1, b2, b3, b4, bd⟩ := q
  obtain ⟨c1, c2, c3, c4, cd⟩ := r
  exact natThen_trans (natThen_trans (natThen_trans (natThen_trans
    (fun hx hy => charsLe_trans _ _ _ hx hy)))) h1 h2

theorem tkeyLe_total (p q : TKey) : (tkeyLe p q || tkeyLe q p) = true := by
  obtain ⟨a1, a2, a3, a4, ad⟩ := p
  obtain ⟨b1, b2, b3, b4, bd⟩ := q
  exact natThen_total (natThen_total (natThen_total (natThen_total
    (charsLe_total _ _))))

instance : IsTrans Video videoGE :=
  ⟨fun _ _ _ h1 h2 => tkeyLe_trans _ _ _ h2 h1⟩

instance : IsTotal Video videoGE := by
  constructor
  intro a b
  have h := tkeyLe_total (trailer_priority b) (trailer_priority a)
  rcases Bool.or_eq_true_iff.mp h with h' | h'
  · exact Or.inl h'
  · exact Or.inr h'



theorem selectLoop_bound (vs : List Video) (acc : List String)
    (hlen : acc.length ≤ 1) (hnd : acc.Nodup) :
    (selectLoop vs acc).length ≤ 2 ∧ (selectLoop vs acc).Nodup := by
  induction vs generalizing acc with
  | nil => exact ⟨by simpa [selectLoop] using hlen.trans (by norm_num), by simpa [selectLoop] using hnd⟩
  | cons v vs ih =>
    simp only [selectLoop]
    cases h : usableUrl v with
    | none => exact ih acc hlen hnd
    | some u =>
      by_cases hmem : u ∈ acc
      · simp only [hmem, if_true]
        exact ih acc hlen hnd
      · simp only [hmem, if_false]
        have hnd' : (acc ++ [u]).Nodup := by
          simp [List.nodup_append, hnd, List.disjoint_singleton, hmem]
        by_cases hge : (acc ++ [u]).length ≥ 2
        · simp only [hge, if_true]
          constructor
          · simp only [List.length_append, List.length_singleton]
            omega
          · exact hnd'
        · simp only [hge, if_false]
          refine ih (acc ++ [u]) ?_ hnd'
          simp only [List.length_append, List.length_singleton] at hge ⊢
          omega

theorem selectLoop_spec (vs : List Video) (acc : List String) (hlen : acc.length < 2) :
    selectLoop vs acc = acc ++ (dedupFirst acc (vs.filterMap usableUrl)).take (2 - acc.length) := by
  induction vs generalizing acc with
  | nil => simp [selectLoop, dedupFirst]
  | cons v vs ih =>
    simp only [selectLoop, List.filterMap_cons]
    cases h : usableUrl v with
    | none => exact ih acc hlen
    | some u =>
      simp only [dedupFirst]
      by_cases hmem : u ∈ acc
      · simp only [hmem, if_true]
        exact ih acc hlen
      · simp only [hmem, if_false]
        by_cases hge : (acc ++ [u]).length ≥ 2
        · have hacc : acc.length = 1 := by
            simp only [List.length_append, List.length_singleton] at hge
            omega
          simp only [hge, if_true, hacc]
          simp
        · simp only [hge, if_false]
          have hlen' : (acc ++ [u]).length < 2 := by omega
          rw [ih (acc ++ [u]) hlen']
          have hacc : acc.length = 0 := by
            simp only [List.length_append, List.length_singleton] at hge ⊢
            omega
          have h2 : 2 - acc.length = 2 := by omega
          have h1 : 2 - (acc ++ [u]).length = 1 := by
            simp only [List.length_append, List.length_singleton]
            omega
          rw [h2, h1]
          simp [List.take_cons]



/-- Claim C1: for every list of raw video descriptors, the trailer
selection returns at most 2 URLs, and no URL occurs twice in the returned
list. -/
theorem trailerSelector_cap_and_nodup (videos : List Video) :
    (select_trailers videos).length ≤ 2 ∧ (select_trailers videos).Nodup :=
  selectLoop_bound _ [] (by simp) List.nodup_nil

/-- Claim C2: trailer candidates are ordered by the composite priority key
descending via a stable sort — the sorted list is pairwise ordered under
`videoGE`, is a permutation of the input, and keeps the original order of
any equal-priority class — and the selected URLs are exactly the first (up
to 2) distinct usable URLs of that ordering. -/
theorem trailerSelector_priority_order (videos : List Video) :
    select_trailers videos =
      (dedupFirst [] ((sortVideos videos).filterMap usableUrl)).take 2
    ∧ List.Sorted videoGE (sortVideos videos)
    ∧ (sortVideos videos).Perm videos
    ∧ ∀ k : TKey, (videos.filter (fun v => trailer_priority v = k)).Sublist (sortVideos videos) := by
  refine ⟨?_, List.sorted_insertionSort _ _, List.perm_insertionSort _ _, ?_⟩
  · simpa using selectLoop_spec (sortVideos videos) [] (by norm_num)
  · intro k
    refine List.sublist_insertionSort ?_ (List.filter_sublist _)
    refine List.pairwise_of_forall_mem_list ?_
    intro a ha b hb
    rw [List.mem_filter] at ha hb
    have ha' : trailer_priority a = k := by simpa using ha.2
    have hb' : trailer_priority b = k := by simpa using hb.2
    show tkeyLe (trailer_priority b) (trailer_priority a) = true
    rw [ha', hb']
    exact tkeyLe_refl k


theorem retryExec_all_none (f : Nat → Option α) (start fuel : Nat)
    (h : ∀ i, start ≤ i → i < start + fuel → f i = none) :
    retryExec f start fuel = none := by
  induction fuel generalizing start with
  | zero => rfl
  | succ fuel ih =>
    simp only [retryExec]
    rw [h start le_rfl (by omega)]
    exact ih (start + 1) fun i h1 h2 => h i (by omega) (by omega)

theorem retryExec_first_some (f : Nat → Option α) (start fuel k : Nat) (p : α)
    (hk : k < fuel) (hnone : ∀ i, start ≤ i → i < start + k → f i = none)
    (hsome : f (start + k) = some p) :
    retryExec f start fuel = some p := by
  induction k generalizing start fuel with
  | zero =>
    obtain ⟨fuel', rfl⟩ : ∃ fuel', fuel = fuel' + 1 := ⟨fuel - 1, by omega⟩
    have hsome' : f start = some p := by simpa using hsome
    simp only [retryExec, hsome']
  | succ k ih =>
    obtain ⟨fuel', rfl⟩ : ∃ fuel', fuel = fuel' + 1 := ⟨fuel - 1, by omega⟩
    simp only [retryExec]
    rw [hnone start le_rfl (by omega)]
    exact ih (start + 1) fuel' (by omega)
      (fun i h1 h2 => hnone i (by omega) (by omega))
      (by simpa [Nat.add_right_comm] using hsome)

/-- Claim C4: a retried operation failing the first N-1 attempts and
succeeding on attempt N ≤ maxAttempts returns the success payload; failing
all maxAttempts attempts yields the exhausted outcome `none` (no exception
escapes, the page is skipped and the loop continues); the call-site bounds
are 3 page-fetch attempts with a fixed 5s delay, 2 enrichment attempts with
a fixed 3s delay, and 5 Wikidata attempts with failure-class-specific waits. -/
theorem retryPolicy_semantics {α : Type} (f : Nat → Option α) (m n : Nat) (p : α) :
    (1 ≤ n → n ≤ m → (∀ i, i < n - 1 → f i = none) → f (n - 1) = some p →
      retryOp f m = some p)
    ∧ ((∀ i, i < m → f i = none) → retryOp f m = none)
    ∧ pageFetchAttempts = 3 ∧ pageFetchDelay = 5 ∧ enrichAttempts = 2 ∧ enrichDelay = 3
    ∧ wikidataAttempts = 5
    ∧ (∀ i, wikidataWait .timeout i = (i + 1) * 10 ∧ wikidataWait .connError i = (i + 1) * 8
        ∧ wikidataWait .other i = (i + 1) * 5)
    ∧ (∀ (fetch : Nat → Option (List Record)) (pg : Nat) (ps : List Nat),
        fetch pg = none → runPages fetch (pg :: ps) = runPages fetch ps) := by
  refine ⟨?_, ?_, rfl, rfl, rfl, rfl, rfl, fun i => ⟨rfl, rfl, rfl⟩, ?_⟩
  · intro h1 h2 hnone hsome
    exact retryExec_first_some f 0 m (n - 1) p (by omega)
      (fun i hi h => hnone i (by omega)) (by simpa using hsome)
  · intro hall
    exact retryExec_all_none f 0 m fun i hi hlt => hall i (by omega)
  · intro fetch pg ps h
    simp [runPages, h]

theorem retryPolicy_semantics_witness :
    retryOp (fun i => if i = 2 then some 42 else none) 3 = some 42
    ∧ retryOp (fun _ => (none : Option Nat)) 2 = none := by
  constructor
  · exact (retryPolicy_semantics (fun i => if i = 2 then some 42 else none) 3 3 42).1
      (by norm_num) le_rfl (by intro i hi; interval_cases i <;> rfl) rfl
  · exact (retryPolicy_semantics (fun _ => (none : Option Nat)) 2 1 0).2.1 fun i _ => rfl

/-- Claim C3 (code bug): the spec says each provider pagination loop reads
its start page from PaginationState and writes the cursor after every page,
but the loops iterate `range(1, N + 1)` unconditionally and never call
`get_start_page` / `set_next_page` (the helpers are dead code): with a
stored cursor of 5 the loop still starts at page 1. -/
theorem pagination_state_unused :
    get_start_page (set_next_page (fun _ _ => none) "tmdb_movies" "popular" 5)
        "tmdb_movies" "popular" = 5
    ∧ (∀ st : PagState, tmdbPageNumbers st = List.range' 1 10
        ∧ tvmazePageNumbers st = List.range' 1 20)
    ∧ (tmdbPageNumbers (set_next_page (fun _ _ => none) "tmdb_movies" "popular" 5)).head? ≠
        some (get_start_page (set_next_page (fun _ _ => none) "tmdb_movies" "popular" 5)
          "tmdb_movies" "popular") := by
  refine ⟨rfl, fun st => ⟨rfl, rfl⟩, ?_⟩
  decide



/-- Claim C5 (amended): every emitted record carries its provider literal
under `source` and always contains the `title` key, whose value is the raw
(possibly null) payload title for TMDb/TVMaze and `"N/A"` for a falsy
Wikidata label; items with a missing title are emitted, not dropped. -/
theorem records_source_and_title (cat : String) (movie : TmdbMovie) (dOpt : Option TmdbDetails)
    (crOpt : Option Credits) (vids : Option (List Video)) (tvshow : TmdbShow)
    (tvdOpt : Option TmdbTvDetails) (s : TvmazeShow) (item : WikidataItem) :
    (∀ r, processTmdbMovie cat movie dOpt crOpt vids = some r →
      r.lookup "source" = some (.str "TMDb") ∧ r.lookup "title" = some (optStr movie.title))
    ∧ (∀ r, processTmdbTv cat tvshow tvdOpt crOpt vids = some r →
      r.lookup "source" = some (.str "TMDb") ∧ r.lookup "title" = some (optStr tvshow.name))
    ∧ (normalizeTvmazeShow s).lookup "source" = some (.str "TVMaze")
    ∧ (normalizeTvmazeShow s).lookup "title" = some (optStr s.name)
    ∧ (normalizeWikidataItem item).lookup "source" = some (.str "Wikidata")
    ∧ (normalizeWikidataItem item).lookup "title" =
        some (.str (if pyTruthyStr item.movieLabel then item.movieLabel.getD "" else "N/A")) := by
  refine ⟨?_, ?_, rfl, rfl, rfl, rfl⟩
  · intro r h
    cases dOpt with
    | none => simp [processTmdbMovie] at h
    | some d =>
      simp only [processTmdbMovie, Option.some.injEq] at h
      subst h
      exact ⟨rfl, rfl⟩
  · intro r h
    cases tvdOpt with
    | none => simp [processTmdbTv] at h
    | some d =>
      simp only [processTmdbTv, Option.some.injEq] at h
      subst h
      exact ⟨rfl, rfl⟩

theorem records_source_and_title_witness :
    ∃ r, processTmdbMovie "popular" ⟨some 1, some "T", none, none, none, none⟩
        (some ⟨[], [], none, none, [], [], .obj []⟩) none none = some r
      ∧ r.lookup "source" = some (.str "TMDb")
      ∧ r.lookup "title" = some (optStr (some "T")) := by
  refine ⟨_, rfl, ?_⟩
  have h := (records_source_and_title "popular" ⟨some 1, some "T", none, none, none, none⟩
    (some ⟨[], [], none, none, [], [], .obj []⟩) none none
    ⟨some 2, some "S", none, none, none⟩ none
    ⟨none, none, none, none, none, none, []⟩ ⟨none, none⟩).1 _ rfl
  exact h

/-- Claim C5 (counterexample): a TVMaze show whose payload has no `name`
is still emitted, with a null `title` — it is not dropped during
normalization, contradicting the claim. -/
theorem missing_title_still_emitted :
    (tvmazePageRecords [⟨some 7, none, some "2020-01-05", none, none, none, ["Drama"]⟩]).length = 1
    ∧ (normalizeTvmazeShow ⟨some 7, none, some "2020-01-05", none, none, none, ["Drama"]⟩).lookup
        "title" = some JVal.null := by
  exact ⟨rfl, rfl⟩

/-- Claim C6 (amended): budget 5000000 with first production country "US"
renders as "$5,000,000" (symbol lookup plus thousands separators, "$"
fallback for unknown countries), and a 0 or absent budget makes the value
null (`None`) — the `budget` key itself stays in the record. -/
theorem currency_formatting (d : TmdbDetails) (cat : String) (movie : TmdbMovie)
    (credits : Credits) (trailers : List String) :
    (mkTmdbMovieRecord cat movie
        {d with budget := some 5000000, production_countries := ["US"]} credits trailers).lookup
        "budget" = some (.str "$5,000,000")
    ∧ (mkTmdbMovieRecord cat movie {d with budget := some 0} credits trailers).lookup
        "budget" = some JVal.null
    ∧ (mkTmdbMovieRecord cat movie {d with budget := none} credits trailers).lookup
        "budget" = some JVal.null
    ∧ (mkTmdbMovieRecord cat movie
        {d with budget := some 1000, production_countries := ["ZZ"]} credits trailers).lookup
        "budget" = some (.str "$1,000") := by
  refine ⟨rfl, ?_, rfl, rfl⟩
  cases hp : d.production_countries with
  | nil => rfl
  | cons c rest => rfl

/-- Claim C6 (counterexample): with budget 0 the `budget` key is present in
the record (with value null); it is not omitted entirely as the claim
states. -/
theorem budget_zero_not_omitted :
    ((mkTmdbMovieRecord "popular" ⟨some 1, some "X", some "2020-01-01", none, none, none⟩
        ⟨["US"], [], some 0, none, [], [], .obj []⟩ ⟨[], []⟩ []).map Prod.fst).contains
        "budget" = true
    ∧ (mkTmdbMovieRecord "popular" ⟨some 1, some "X", some "2020-01-01", none, none, none⟩
        ⟨["US"], [], some 0, none, [], [], .obj []⟩ ⟨[], []⟩ []).lookup "budget"
        = some JVal.null := by
  exact ⟨rfl, rfl⟩



/-- Claim C7: the derived year is the first 4 characters of the
release/air/premiere date string, and "N/A" when the date is absent or
empty; this is the value stored under `year` in every TMDb movie, TMDb TV
and TVMaze record. -/
theorem year_derivation :
    (∀ s : String, s ≠ "" → deriveYear (some s) = s.take 4)
    ∧ deriveYear none = "N/A"
    ∧ deriveYear (some "") = "N/A"
    ∧ deriveYear (some "2024-03-15") = "2024"
    ∧ (∀ (cat : String) (movie : TmdbMovie) (d : TmdbDetails) (credits : Credits)
        (trailers : List String),
        (mkTmdbMovieRecord cat movie d credits trailers).lookup "year" =
          some (.str (deriveYear movie.release_date)))
    ∧ (∀ (cat : String) (tvshow : TmdbShow) (tvd : TmdbTvDetails) (credits : Credits)
        (trailers : List String),
        (mkTmdbTvRecord cat tvshow tvd credits trailers).lookup "year" =
          some (.str (deriveYear tvshow.first_air_date)))
    ∧ (∀ s : TvmazeShow, (normalizeTvmazeShow s).lookup "year" =
        some (.str (deriveYear s.premiered))) := by
  refine ⟨?_, rfl, rfl, rfl, fun _ _ _ _ _ => rfl, fun _ _ _ _ _ => rfl, fun _ => rfl⟩
  intro s hs
  have h : s.isEmpty = false := by
    rw [Bool.eq_false_iff]
    intro hemp
    exact hs ((String.isEmpty_iff s).mp hemp)
  simp [deriveYear, pyTruthyStr, h]

theorem year_derivation_witness :
    ("2024-03-15" : String) ≠ "" ∧ deriveYear (some "2024-03-15") = ("2024-03-15" : String).take 4 :=
  ⟨by decide, year_derivation.1 "2024-03-15" (by decide)⟩

/-- Claim C8: with all four provider record lists given (every network call
succeeded), the output document's movies list is the in-order concatenation
of the providers' page-flattened record sequences, its length is the sum of
the four breakdown counts, and total_entries equals that length. -/
theorem aggregation_totals (tmdbCats tvCats : List (List (List Record)))
    (tvmazePages : List (List Record)) (wiki : List Record) :
    (buildOutput (concatPages (tmdbCats.map concatPages)) (concatPages (tvCats.map concatPages))
        (concatPages tvmazePages) wiki).movies.length =
      (buildOutput (concatPages (tmdbCats.map concatPages)) (concatPages (tvCats.map concatPages))
          (concatPages tvmazePages) wiki).breakdown.tmdb_movies
      + (buildOutput (concatPages (tmdbCats.map concatPages)) (concatPages (tvCats.map concatPages))
          (concatPages tvmazePages) wiki).breakdown.tmdb_tv
      + (buildOutput (concatPages (tmdbCats.map concatPages)) (concatPages (tvCats.map concatPages))
          (concatPages tvmazePages) wiki).breakdown.tvmaze_shows
      + (buildOutput (concatPages (tmdbCats.map concatPages)) (concatPages (tvCats.map concatPages))
          (concatPages tvmazePages) wiki).breakdown.wikidata_movies
    ∧ (buildOutput (concatPages (tmdbCats.map concatPages)) (concatPages (tvCats.map concatPages))
        (concatPages tvmazePages) wiki).movies =
      concatPages (tmdbCats.map concatPages) ++ concatPages (tvCats.map concatPages)
        ++ concatPages tvmazePages ++ wiki
    ∧ (buildOutput (concatPages (tmdbCats.map concatPages)) (concatPages (tvCats.map concatPages))
        (concatPages tvmazePages) wiki).total_entries =
      (buildOutput (concatPages (tmdbCats.map concatPages)) (concatPages (tvCats.map concatPages))
          (concatPages tvmazePages) wiki).movies.length := by
  refine ⟨?_, rfl, rfl⟩
  simp only [buildOutput, List.length_append]

/-- Claim C9: for a TMDb movie or TV item, a failed details enrichment
(`none` after its retries) skips the item entirely, while a failed credits
enrichment still emits the record, with empty cast, directors and writers. -/
theorem tmdb_enrichment_failures (cat : String) (movie : TmdbMovie) (crOpt : Option Credits)
    (vids : Option (List Video)) (d : TmdbDetails) (tvshow : TmdbShow) (tvd : TmdbTvDetails) :
    processTmdbMovie cat movie none crOpt vids = none
    ∧ processTmdbTv cat tvshow none crOpt vids = none
    ∧ (∀ r, processTmdbMovie cat movie (some d) none vids = some r →
        r.lookup "cast" = some (.arr []) ∧ r.lookup "directors" = some (.arr [])
        ∧ r.lookup "writers" = some (.arr []))
    ∧ (∀ r, processTmdbTv cat tvshow (some tvd) none vids = some r →
        r.lookup "cast" = some (.arr [])) := by
  refine ⟨rfl, rfl, ?_, ?_⟩
  · intro r h
    simp only [processTmdbMovie, Option.some.injEq] at h
    subst h
    exact ⟨rfl, rfl, rfl⟩
  · intro r h
    simp only [processTmdbTv, Option.some.injEq] at h
    subst h
    rfl

theorem tmdb_enrichment_failures_witness :
    processTmdbMovie "popular" ⟨some 1, some "T", none, none, none, none⟩ none none none = none
    ∧ ∃ r, processTmdbMovie "popular" ⟨some 1, some "T", none, none, none, none⟩
        (some ⟨[], [], none, none, [], [], .obj []⟩) none none = some r
      ∧ r.lookup "cast" = some (.arr []) := by
  constructor
  · exact (tmdb_enrichment_failures "popular" ⟨some 1, some "T", none, none, none, none⟩ none none
      ⟨[], [], none, none, [], [], .obj []⟩ ⟨some 2, some "S", none, none, none⟩
      ⟨none, [], [], [], .obj []⟩).1
  · refine ⟨_, rfl, ?_⟩
    exact ((tmdb_enrichment_failures "popular" ⟨some 1, some "T", none, none, none, none⟩ none none
      ⟨[], [], none, none, [], [], .obj []⟩ ⟨some 2, some "S", none, none, none⟩
      ⟨none, [], [], [], .obj []⟩).2.2.1 _ rfl).1

/-- Claim C10: the cast list of every emitted TMDb movie or TV record is the
first `min 10 ⌊cast length⌋` credit entries — the cap the spec leaves
unnumbered is exactly 10. -/
theorem cast_cap_ten (cs : List CastMember) (cat : String) (movie : TmdbMovie)
    (d : TmdbDetails) (credits : Credits) (trailers : List String)
    (tvshow : TmdbShow) (tvd : TmdbTvDetails) :
    (mkCastList cs).length = min cs.length 10
    ∧ (mkCastList cs).length ≤ 10
    ∧ (mkTmdbMovieRecord cat movie d credits trailers).lookup "cast" =
        some (.arr (mkCastList credits.cast))
    ∧ (mkTmdbTvRecord cat tvshow tvd credits trailers).lookup "cast" =
        some (.arr (mkCastList credits.cast)) := by
  have hlen : (mkCastList cs).length = min cs.length 10 := by
    simp [mkCastList, List.length_take, Nat.min_comm]
  refine ⟨hlen, ?_, rfl, rfl⟩
  rw [hlen]
  exact Nat.min_le_right _ _


end UpdateData
